import Mathlib

/-!
Verification development for the BrowserOS sidecar lifecycle supervisor
(chrome/browser/browseros/server/ in the chromium patch set).

The C++ code is shallowly embedded: pure logic (port scanning, override
parsing, state-machine transitions of BrowserOSServerManager, the proxy's
request dispatch) becomes executable Lean functions; the OS environment
(bind probes, the Chromium scheme allowlist, process tables) is passed in
as explicit function-valued parameters.
-/

namespace BrowserOSServer

/-- Environment for port probing.  `schemeAllowed p` models
`net::IsPortAllowedForScheme(p, "http")` (Chromium's restricted-port
allowlist, external to this repository); `bindOK p` models the outcome of
the bind probe performed by `IsPortAvailable` (the IPv4+IPv6 bind pair, or
the single `SO_REUSEADDR` listen when `allow_reuse` is set). -/
structure PortEnv where
  schemeAllowed : Nat → Bool
  bindOK : Nat → Bool

/-- Embedding of `server_utils::IsPortAvailable`
(browseros_server_utils.cc:111-167; the manager's private copy at
browseros_server_manager.cc:1134-1181 is identical): the port must be in
the valid range (`net::IsPortValid`, 0..65535), must not be well-known
(`net::IsWellKnownPort`, below 1024 — this also covers the explicit
`port == 0` rejection), must be allowed for the http scheme, and the bind
probe must succeed. -/
def isPortAvailable (env : PortEnv) (port : Nat) : Bool :=
  decide (port ≤ 65535) && !(decide (port < 1024)) &&
    env.schemeAllowed port && env.bindOK port

/-- Embedding of `excluded_ports.count(port) > 0` on the `std::set<int>`
of already-assigned ports. -/
def inExcluded : List Nat → Nat → Bool
  | [], _ => false
  | e :: rest, p => (e == p) || inExcluded rest p

/-- The scanning loop of `server_utils::FindAvailablePort`
(browseros_server_utils.cc:82-103): try `start, start+1, ...` while fuel
(the remaining attempt budget out of `kMaxPortAttempts = 100`) lasts,
breaking out as soon as a candidate exceeds `kMaxPort = 65535`, skipping
excluded candidates, and returning the first available one. -/
def scanPorts (env : PortEnv) (excl : List Nat) : Nat → Nat → Option Nat
  | _, 0 => none
  | port, fuel + 1 =>
    if 65535 < port then none
    else if inExcluded excl port then scanPorts env excl (port + 1) fuel
    else if isPortAvailable env port then some port
    else scanPorts env excl (port + 1) fuel

/-- Embedding of `server_utils::FindAvailablePort`
(browseros_server_utils.cc:77-109; the manager's private copy at
browseros_server_manager.cc:1099-1132 is identical): scan up to 100
candidates and fall back to the original `starting_port` when nothing is
found. -/
def findAvailablePort (env : PortEnv) (startingPort : Nat)
    (excl : List Nat) : Nat :=
  (scanPorts env excl startingPort 100).getD startingPort

/-- Candidate predicate used by the scan: not excluded and available. -/
def goodPort (env : PortEnv) (excl : List Nat) (p : Nat) : Bool :=
  !(inExcluded excl p) && isPortAvailable env p

/-- The candidate sequence described by the specification: `preferred,
preferred+1, ...`, at most 100 of them, never exceeding 65535. -/
def specCandidates (preferred : Nat) : List Nat :=
  ((List.range 100).map (fun i => preferred + i)).filter
    (fun p => decide (p ≤ 65535))

/-- The specification's description of `find_available_port` (spec §4.1):
the first candidate that is not excluded and is available, with the
original preferred value as the fallback. -/
def findAvailablePortSpec (env : PortEnv) (preferred : Nat)
    (excl : List Nat) : Nat :=
  ((specCandidates preferred).find? (goodPort env excl)).getD preferred

/-- The four port assignments held by the manager
(`cdp_port_`, `mcp_port_`, `agent_port_`, `extension_port_`). -/
structure Ports4 where
  cdp : Nat
  mcp : Nat
  agent : Nat
  ext : Nat
deriving DecidableEq, Repr

/-- Embedding of `BrowserOSServerManager::ResolvePortsForStartup`
(browseros_server_manager.cc:409-431).  The CDP port is scanned against an
empty exclusion set; the MCP port is kept exactly as loaded ("Use saved
value directly - do NOT revalidate"), only being inserted into
`assigned_ports`; the agent and extension ports are then scanned against
the ports assigned so far. -/
def resolvePortsForStartup (env : PortEnv) (p : Ports4) : Ports4 :=
  let cdp := findAvailablePort env p.cdp []
  let agent := findAvailablePort env p.agent [cdp, p.mcp]
  let ext := findAvailablePort env p.ext [cdp, p.mcp, agent]
  ⟨cdp, p.mcp, agent, ext⟩

/-- Embedding of `base::StringToInt` as used by
`GetPortOverrideFromCommandLine`: an optional leading minus sign followed
by one or more ASCII digits; anything else fails.  (C++ `int` overflow
makes `StringToInt` return false; in the model an overflowing value parses
to a number above 65535 and is rejected by the same range check, so the
observable behaviour of the override helper is identical.) -/
def digitsToNat (cs : List Char) : Option Nat :=
  match cs with
  | [] => none
  | _ =>
    cs.foldl
      (fun acc c =>
        match acc with
        | none => none
        | some n => if c.isDigit then some (n * 10 + (c.toNat - 48)) else none)
      (some 0)

def stringToIntCpp (s : String) : Option Int :=
  match s.data with
  | [] => none
  | '-' :: rest => (digitsToNat rest).map (fun n => -(n : Int))
  | cs => (digitsToNat cs).map (fun n => (n : Int))

/-- Embedding of `GetPortOverrideFromCommandLine`
(browseros_server_manager.cc:152-187).  `none` stands for an absent
switch.  The value is rejected (returning 0) when it does not parse, is
not a valid port (`net::IsPortValid`, 0..65535) or is `<= 0`; a value in
1..65535 is returned unchanged — well-known and scheme-restricted ports
only produce log warnings. -/
def getPortOverrideFromCommandLine (sw : Option String) : Int :=
  match sw with
  | none => 0
  | some s =>
    match stringToIntCpp s with
    | none => 0
    | some v => if v ≤ 0 ∨ 65535 < v then 0 else v

/-- The four optional per-port command-line switches
(`--browseros-cdp-port` etc.). -/
structure PortOverrides where
  cdp : Option String
  mcp : Option String
  agent : Option String
  ext : Option String

/-- Embedding of `BrowserOSServerManager::ApplyCommandLineOverrides`
(browseros_server_manager.cc:433-463): each port is replaced exactly when
its override helper returns a positive value; no availability probe is
consulted. -/
def applyCommandLineOverrides (ov : PortOverrides) (p : Ports4) : Ports4 :=
  let pick : Option String → Nat → Nat := fun sw old =>
    let v := getPortOverrideFromCommandLine sw
    if 0 < v then v.toNat else old
  ⟨pick ov.cdp p.cdp, pick ov.mcp p.mcp, pick ov.agent p.agent,
    pick ov.ext p.ext⟩

/-- Result of `BrowserOSServerManager::RevalidatePortsForRestart`
(struct `RevalidatedPorts`). -/
structure RevalidatedPorts where
  mcp : Nat
  agent : Nat
  ext : Nat
deriving DecidableEq, Repr

/-- Embedding of `BrowserOSServerManager::RevalidatePortsForRestart`
(browseros_server_manager.cc:955-995).  The CDP port is excluded up front
(still bound by the DevTools server).  With `revalidateAll` (exit code 2,
PORT_CONFLICT) every port runs through `FindAvailablePort`; otherwise the
MCP port is trusted to survive TIME_WAIT and is kept unchanged, merely
excluded while the agent and extension ports are rescanned. -/
def revalidatePortsForRestart (env : PortEnv) (cdpPort currentMcp
    currentAgent currentExt : Nat) (revalidateAll : Bool) :
    RevalidatedPorts :=
  if revalidateAll then
    let m := findAvailablePort env currentMcp [cdpPort]
    let a := findAvailablePort env currentAgent [cdpPort, m]
    let e := findAvailablePort env currentExt [cdpPort, m, a]
    ⟨m, a, e⟩
  else
    let a := findAvailablePort env currentAgent [cdpPort, currentMcp]
    let e := findAvailablePort env currentExt [cdpPort, currentMcp, a]
    ⟨currentMcp, a, e⟩

/-- In-memory supervisor state of `BrowserOSServerManager`
(browseros_server_manager.h): `is_running_`, `is_restarting_`,
`is_updating_`, the lazily created `updater_` (plus the
`--browseros-disable-server-updater` switch that suppresses its creation),
and `consecutive_startup_failures_`.  `last_launch_time_` is abstracted by
passing the computed uptime with the process-exit event. -/
structure MgrState where
  isRunning : Bool
  isRestarting : Bool
  isUpdating : Bool
  hasUpdater : Bool
  updaterDisabled : Bool
  failures : Nat
deriving DecidableEq, Repr

/-- Observable side effects of a manager transition. -/
inductive MgrAction where
  | stopTimers
  | startTimers
  | terminateProcess
  | revalidatePorts (revalidateAll : Bool)
  | launchProcess
  | invalidateDownloadedVersion
  | savePrefs
  | resetRestartPref
  | updateCallback (ok : Bool)
  | createUpdater
deriving DecidableEq, Repr

/-- Events delivered to the manager on its owner thread: a health-check
completion carrying the HTTP response code, the liveness poll noticing a
process exit (carrying the exit code and the uptime since last launch, in
milliseconds), the `restart_requested` preference change, the completion
of background port revalidation, and the completion of a launch attempt. -/
inductive MgrEvent where
  | healthCheckComplete (responseCode : Nat)
  | processExited (exitCode : Int) (uptimeMs : Nat)
  | restartRequestedChanged (prefValue : Bool)
  | portsRevalidated (portsChanged : Bool)
  | processLaunched (ok : Bool) (usedFallback : Bool)
deriving DecidableEq, Repr

/-- Embedding of `BrowserOSServerManager::RestartBrowserOSProcess`
(browseros_server_manager.cc:920-953): bail out when `is_restarting_` is
already set; otherwise set it, stop both timers and hand off to the
background terminate-then-revalidate sequence (light revalidation). -/
def restartBrowserOSProcess (s : MgrState) : MgrState × List MgrAction :=
  if s.isRestarting then (s, [])
  else ({ s with isRestarting := true },
    [.stopTimers, .terminateProcess, .revalidatePorts false])

/-- Embedding of `BrowserOSServerManager::OnProcessExited`
(browseros_server_manager.cc:755-823).  Exit code 0 returns after stopping
the timers.  A non-zero exit first updates the startup-failure counter
(increment below the 30s grace period, rolling back the downloaded binary
and resetting on the 3rd consecutive early failure; reset past the grace
period), then — unless a restart is already in flight — marks
`is_restarting_` and posts revalidation with `revalidate_all` exactly when
the exit code is `kExitCodePortConflict` (2).  The crash-tracking block
(browseros_server_manager.cc:769-789) is factored out as
`startupCrashTracking`. -/
def startupCrashTracking (s : MgrState) (uptimeMs : Nat) :
    MgrState × List MgrAction :=
  if uptimeMs < 30000 then
    let c := s.failures + 1
    if 3 ≤ c then
      ({ s with failures := 0 },
        if s.hasUpdater then [.invalidateDownloadedVersion] else [])
    else ({ s with failures := c }, ([] : List MgrAction))
  else ({ s with failures := 0 }, [])

/-- Embedding of `BrowserOSServerManager::OnProcessExited`, continued:
mark not running, stop the timers, return on a clean exit, run the crash
tracking, then start the restart unless one is already in flight. -/
def onProcessExited (s : MgrState) (exitCode : Int) (uptimeMs : Nat) :
    MgrState × List MgrAction :=
  let s := { s with isRunning := false }
  if exitCode = 0 then (s, [.stopTimers])
  else
    let crash := startupCrashTracking s uptimeMs
    let s := crash.1
    if s.isRestarting then (s, .stopTimers :: crash.2)
    else
      ({ s with isRestarting := true },
        .stopTimers :: crash.2 ++
          [.revalidatePorts (decide (exitCode = 2))])

/-- Embedding of `BrowserOSServerManager::OnProcessLaunched`
(browseros_server_manager.cc:645-715).  A fallback launch invalidates the
downloaded version.  On failure the restarting flag is cleared, and an
update restart reports failure through the callback.  On success the
process is recorded as running, both monitoring timers start, the
restarting flag is cleared (resetting the `restart_requested` pref when it
drove the restart), an update restart reports success, and the updater is
created lazily unless disabled. -/
def onProcessLaunched (s : MgrState) (ok usedFallback : Bool) :
    MgrState × List MgrAction :=
  let invAct : List MgrAction :=
    if usedFallback && s.hasUpdater then [.invalidateDownloadedVersion]
    else []
  if !ok then
    ({ s with isRestarting := false, isUpdating := false },
      invAct ++ if s.isUpdating then [.updateCallback false] else [])
  else
    ({ s with
        isRunning := true
        isRestarting := false
        isUpdating := false
        hasUpdater := s.hasUpdater || !s.updaterDisabled },
      invAct ++ [.startTimers] ++
        (if s.isRestarting then [.resetRestartPref] else []) ++
        (if s.isUpdating then [.updateCallback true] else []) ++
        (if !s.hasUpdater && !s.updaterDisabled then [.createUpdater]
         else []))

/-- One owner-thread transition of `BrowserOSServerManager`, dispatching
the events above to their handlers in browseros_server_manager.cc:
`OnHealthCheckComplete` (lines 893-918: a non-200 response while running
triggers `RestartBrowserOSProcess`), `OnProcessExited`,
`OnRestartServerRequestedChanged` (lines 1082-1097), `OnPortsRevalidated`
(lines 997-1017: persist changed ports, then launch — the restarting flag
is deliberately left alone), and `OnProcessLaunched`. -/
def mgrStep (s : MgrState) : MgrEvent → MgrState × List MgrAction
  | .healthCheckComplete code =>
    if !s.isRunning then (s, [])
    else if code = 200 then (s, [])
    else restartBrowserOSProcess s
  | .processExited exitCode uptimeMs => onProcessExited s exitCode uptimeMs
  | .restartRequestedChanged prefValue =>
    if !prefValue then (s, []) else restartBrowserOSProcess s
  | .portsRevalidated portsChanged =>
    (s, (if portsChanged then [.savePrefs] else []) ++ [.launchProcess])
  | .processLaunched ok usedFallback => onProcessLaunched s ok usedFallback

/-- An action list "starts a restart sequence" when it terminates,
revalidates or launches. -/
def startsRestartWork (acts : List MgrAction) : Bool :=
  acts.any fun a =>
    match a with
    | .terminateProcess => true
    | .revalidatePorts _ => true
    | .launchProcess => true
    | _ => false

/-- Decision taken by `BrowserOSServerProxy::OnHttpRequest`
(browseros_server_proxy.cc:124-137) for an inbound connection. -/
inductive InboundDecision where
  | rejectForbidden
  | forwardRequestPath
deriving DecidableEq, Repr

/-- Embedding of `BrowserOSServerProxy::OnHttpRequest`
(browseros_server_proxy.cc:124-137): unless `allow_remote_` is set, a
non-loopback peer gets HTTP 403 and its connection closed; every other
request is handed to `ForwardRequest`. -/
def onHttpRequest (allowRemote peerIsLoopback : Bool) : InboundDecision :=
  if !allowRemote && !peerIsLoopback then .rejectForbidden
  else .forwardRequestPath

/-- Reply the proxy writes back to the client. -/
inductive ProxyReply where
  | serviceUnavailable
  | forwarded (status : Nat) (body : String) (contentType : String)
deriving DecidableEq, Repr

/-- Embedding of the synchronous part of
`BrowserOSServerProxy::ForwardRequest` (browseros_server_proxy.cc:154-192):
with no backend port configured (`backend_port_ <= 0`) or no bound loader
factory it answers 503 immediately; otherwise (`none`) the request is
dispatched to the backend and the reply is produced later by
`OnBackendResponse`. -/
def forwardRequest (backendPort : Int) (hasFactory : Bool) :
    Option ProxyReply :=
  if backendPort ≤ 0 || !hasFactory then some .serviceUnavailable
  else none

/-- What the backend loader delivered: the downloaded body (if any), the
HTTP response code (0 when no headers came back) and the normalized
content-type header if present. -/
structure BackendResult where
  body : Option String
  responseCode : Nat
  contentTypeHeader : Option String

/-- Embedding of `BrowserOSServerProxy::OnBackendResponse`
(browseros_server_proxy.cc:194-229): a connection no longer pending (or a
stopped server) is dropped silently (`none`); a missing body or response
code 0 yields 503; otherwise status, body and content-type (defaulting to
application/json) are streamed back. -/
def onBackendResponse (pendingHas hasServer : Bool) (r : BackendResult) :
    Option ProxyReply :=
  if !pendingHas || !hasServer then none
  else if r.body.isNone || r.responseCode == 0 then some .serviceUnavailable
  else
    some (.forwarded r.responseCode (r.body.getD "")
      (r.contentTypeHeader.getD "application/json"))

/-- The orphan record persisted in `server.state`
(`server_utils::ServerState`, browseros_server_utils.h:64-67). -/
structure ServerStateRecord where
  pid : Nat
  creationTime : Int
deriving DecidableEq, Repr

/-- The OS facts orphan recovery consults: the stored record
(`server_utils::ReadStateFile`), process existence
(`server_utils::ProcessExists`) and the retrieved per-pid creation time
(`server_utils::GetProcessCreationTime`,
browseros_server_utils.cc:351-434, `none` when it cannot be retrieved). -/
structure OrphanEnv where
  stateRecord : Option ServerStateRecord
  processExists : Nat → Bool
  creationTimeOf : Nat → Option Int

/-- What orphan recovery did: whether a kill was issued against the
recorded pid, whether the state record was deleted, and the return value
(orphan found and killed). -/
structure RecoveryOutcome where
  killIssued : Bool
  recordDeleted : Bool
  orphanKilled : Bool
deriving DecidableEq, Repr

/-- Modelled from the spec: `BrowserOSServerManager::RecoverFromOrphan` is
declared at browseros_server_manager.h:129-133 ("validates PID +
creation_time to avoid killing wrong process if PID was reused") but its
definition is not in the patch set; the algorithm is spec §4.3: no record
means nothing to recover; a dead pid means delete the stale record; an
unretrievable creation time is treated as stale and deleted; a creation
time differing from the recorded one means the pid was reused — do not
kill, delete the record; only a full match is killed (graceful then
forceful) with the record deleted regardless of kill outcome. -/
def recoverFromOrphan (env : OrphanEnv) : RecoveryOutcome :=
  match env.stateRecord with
  | none => ⟨false, false, false⟩
  | some st =>
    if !env.processExists st.pid then ⟨false, true, false⟩
    else
      match env.creationTimeOf st.pid with
      | none => ⟨false, true, false⟩
      | some t =>
        if t ≠ st.creationTime then ⟨false, true, false⟩
        else ⟨true, true, true⟩

/-- Restart decision taken after a health-check completion. -/
inductive HealthRestart where
  | noRestart
  | lightRestart
  | fullRevalidation
deriving DecidableEq, Repr

/-- Modelled from the spec: the health-failure handler of the current
manager revision — `OnHealthCheckComplete(bool success)` with
`consecutive_health_check_failures_` is declared at
browseros_server_manager.h:106 and 203-205 ("3 consecutive failures
triggers full port revalidation") but its definition is not in the patch
set (the superseded handler at browseros_server_manager.cc:893-918 has no
counter).  Spec §4.7: a success resets the consecutive-failure counter; a
failure increments it; after 3 consecutive failures the restart
re-validates all ports from scratch, while a single/occasional failure
triggers a lighter restart that only re-validates the volatile ports.
Probe results are not honored when the supervisor is not running
(spec §5). -/
def onHealthCheckCompleteModelled (isRunning : Bool) (counter : Nat)
    (success : Bool) : Nat × HealthRestart :=
  if !isRunning then (counter, .noRestart)
  else if success then (0, .noRestart)
  else
    let c := counter + 1
    if 3 ≤ c then (c, .fullRevalidation) else (c, .lightRestart)

/-- Steps taken to bring the sidecar process down. -/
inductive TermAction where
  | httpShutdownRequest
  | sigkill
  | waitForExit
deriving DecidableEq, Repr

/-- Embedding of `BrowserOSServerManager::TerminateBrowserOSProcess`
(browseros_server_manager.cc:717-753, POSIX branch): with a valid process
handle it sends SIGKILL immediately — no HTTP shutdown request is ever
issued — and optionally blocks for the exit. -/
def terminateBrowserOSProcess (processValid wait : Bool) :
    List TermAction :=
  if !processValid then []
  else if wait then [.sigkill, .waitForExit]
  else [.sigkill]

/-- Embedding of `ProcessControllerImpl::Terminate`
(process_controller_impl.cc:149-181, POSIX branch): identical shape —
SIGKILL directly, optionally waiting, never an HTTP shutdown. -/
def processControllerTerminate (processValid wait : Bool) :
    List TermAction :=
  if !processValid then []
  else if wait then [.sigkill, .waitForExit]
  else [.sigkill]

/-- The scanning loop's outcome before the fallback is applied:
`some p` exactly when `FindAvailablePort` found a port within the attempt
budget, `none` when it fell back to the starting port. -/
def findAvailablePortOpt (env : PortEnv) (startingPort : Nat)
    (excl : List Nat) : Option Nat :=
  scanPorts env excl startingPort 100

/-- An environment in which every bind probe succeeds and no port is
scheme-restricted — the most permissive OS state. -/
def envAllFree : PortEnv := ⟨fun _ => true, fun _ => true⟩

/-- A supervisor state in the middle of a restart sequence
(`is_restarting_ == true`, process already gone, updater present). -/
def mgrRestartingState : MgrState :=
  ⟨false, true, false, true, false, 0⟩

/-- An orphan-recovery input exhibiting pid reuse: the state file recorded
pid 4242 with creation time 1000, the OS reports a live process at 4242
whose retrieved creation time is 2000. -/
def orphanEnvReused : OrphanEnv :=
  ⟨some ⟨4242, 1000⟩, fun _ => true, fun _ => some 2000⟩

theorem scanPorts_eq_find? (env : PortEnv) (excl : List Nat) :
    ∀ (fuel start : Nat),
      scanPorts env excl start fuel =
        (((List.range fuel).map (fun i => start + i)).filter
          (fun p => decide (p ≤ 65535))).find? (goodPort env excl) := by
  intro fuel
  induction fuel with
  | zero => intro start; simp [scanPorts]
  | succ n ih =>
    intro start
    have hfun : ((fun i => start + i) ∘ Nat.succ) =
        (fun i => (start + 1) + i) := by
      funext i
      simp only [Function.comp]
      omega
    have hmap : (List.range (n + 1)).map (fun i => start + i) =
        start :: (List.range n).map (fun i => (start + 1) + i) := by
      rw [List.range_succ_eq_map, List.map_cons, List.map_map, hfun,
        Nat.add_zero]
    rw [hmap]
    by_cases hbig : 65535 < start
    · have hfilter :
          ((List.range n).map (fun i => (start + 1) + i)).filter
            (fun p => decide (p ≤ 65535)) = [] := by
        apply List.filter_eq_nil_iff.mpr
        intro a ha
        simp only [List.mem_map, List.mem_range] at ha
        obtain ⟨i, _, rfl⟩ := ha
        simp only [decide_eq_true_eq]
        omega
      simp only [scanPorts, if_pos hbig, List.filter_cons]
      have : (decide (start ≤ 65535)) = false := by
        simp only [decide_eq_false_iff_not]; omega
      rw [this]
      simp [hfilter]
    · have hle : start ≤ 65535 := by omega
      have hkeep : (decide (start ≤ 65535)) = true := by
        simp only [decide_eq_true_eq]; omega
      simp only [scanPorts, if_neg hbig, List.filter_cons, hkeep, if_pos]
      by_cases hexcl : inExcluded excl start
      · have hgood : goodPort env excl start = false := by
          simp [goodPort, hexcl]
        rw [if_pos hexcl, List.find?_cons, hgood, ih]
      · by_cases havail : isPortAvailable env start
        · have hgood : goodPort env excl start = true := by
            simp [goodPort, hexcl, havail]
          rw [if_neg hexcl, if_pos havail, List.find?_cons, hgood]
        · have hgood : goodPort env excl start = false := by
            simp [goodPort, hexcl, havail]
          rw [if_neg hexcl, if_neg havail, List.find?_cons, hgood, ih]

theorem scanPorts_some (env : PortEnv) (excl : List Nat) :
    ∀ (fuel start p : Nat), scanPorts env excl start fuel = some p →
      inExcluded excl p = false ∧ isPortAvailable env p = true := by
  intro fuel
  induction fuel with
  | zero => intro start p h; simp [scanPorts] at h
  | succ n ih =>
    intro start p h
    simp only [scanPorts] at h
    by_cases hbig : 65535 < start
    · rw [if_pos hbig] at h; exact absurd h (by simp)
    · rw [if_neg hbig] at h
      by_cases hexcl : inExcluded excl start
      · rw [if_pos hexcl] at h; exact ih (start + 1) p h
      · rw [if_neg hexcl] at h
        by_cases havail : isPortAvailable env start
        · rw [if_pos havail] at h
          obtain rfl : start = p := by injection h
          exact ⟨Bool.not_eq_true _ ▸ (by simpa using hexcl), havail⟩
        · rw [if_neg havail] at h
          exact ih (start + 1) p h

theorem findAvailablePortOpt_some (env : PortEnv) (excl : List Nat)
    (pref p : Nat) (h : findAvailablePortOpt env pref excl = some p) :
    findAvailablePort env pref excl = p ∧
      inExcluded excl p = false ∧ isPortAvailable env p = true := by
  have hscan := h
  unfold findAvailablePortOpt at hscan
  refine ⟨?_, scanPorts_some env excl 100 pref p hscan⟩
  unfold findAvailablePort
  rw [hscan]
  rfl

theorem inExcluded_eq_false (l : List Nat) (p : Nat)
    (h : inExcluded l p = false) : ∀ q ∈ l, p ≠ q := by
  induction l with
  | nil => intro q hq; simp at hq
  | cons a t ih =>
    intro q hq
    simp only [inExcluded, Bool.or_eq_false_iff] at h
    rcases List.mem_cons.mp hq with rfl | hq
    · intro hc
      rw [hc] at h
      simp at h
    · exact ih h.2 q hq

theorem isPortAvailable_eq_true (env : PortEnv) (p : Nat)
    (h : isPortAvailable env p = true) :
    1024 ≤ p ∧ p ≤ 65535 ∧ env.schemeAllowed p = true ∧
      env.bindOK p = true := by
  simp only [isPortAvailable, Bool.and_eq_true, Bool.not_eq_eq_eq_not,
    Bool.not_true, decide_eq_true_eq, decide_eq_false_iff_not] at h
  exact ⟨by omega, h.1.1.1, h.1.2, h.2⟩

/-- C6: `find_available_port(preferred, excluded)` returns the first port
in the sequence `preferred, preferred+1, ...` (at most 100 candidates,
never exceeding 65535) that is not excluded and is available — where ports
below 1024, scheme-disallowed ports and ports failing the bind probe all
count as unavailable — and, when no such port exists within the attempt
budget, falls back to the original preferred value rather than failing. -/
theorem C6_find_available_port (env : PortEnv) (preferred : Nat)
    (excl : List Nat) :
    findAvailablePort env preferred excl =
      findAvailablePortSpec env preferred excl ∧
    (∀ p : Nat, p < 1024 → isPortAvailable env p = false) ∧
    (∀ p : Nat, env.schemeAllowed p = false →
      isPortAvailable env p = false) ∧
    (∀ p : Nat, env.bindOK p = false → isPortAvailable env p = false) ∧
    ((specCandidates preferred).find? (goodPort env excl) = none →
      findAvailablePort env preferred excl = preferred) := by
  have hchar : findAvailablePort env preferred excl =
      findAvailablePortSpec env preferred excl := by
    unfold findAvailablePort findAvailablePortSpec specCandidates
    rw [scanPorts_eq_find? env excl 100 preferred]
  refine ⟨hchar, ?_, ?_, ?_, ?_⟩
  · intro p hp
    have : (decide (p < 1024)) = true := by simpa using hp
    simp [isPortAvailable, this]
  · intro p hp
    simp [isPortAvailable, hp]
  · intro p hp
    simp [isPortAvailable, hp]
  · intro hnone
    rw [hchar]
    unfold findAvailablePortSpec
    rw [hnone]
    rfl

/-- C6 witness: in a fully free environment the scan keeps the preferred
port 9223, port 80 (below 1024) counts as unavailable, and the fallback
clause fires when the preferred port already exceeds 65535. -/
theorem C6_find_available_port_witness :
    findAvailablePort envAllFree 9223 [] =
      findAvailablePortSpec envAllFree 9223 [] ∧
    isPortAvailable envAllFree 80 = false ∧
    findAvailablePort envAllFree 70000 [] = 70000 := by
  have h := C6_find_available_port envAllFree 9223 []
  have h2 := C6_find_available_port envAllFree 70000 []
  exact ⟨h.1, h.2.1 80 (by decide), h2.2.2.2.2 (by rfl)⟩

/-- C1 counterexample: with every bind probe succeeding (the most
successful resolution possible), startup resolution with stored ports
`{cdp = 9000, mcp = 9000, agent = 9300, extension = 9400}` resolves the
CDP port to 9000, equal to the (never revalidated, never excluded while
resolving CDP) MCP port — so the four resolved ports are not pairwise
distinct; and a command-line override moves the MCP port to the well
known port 80 without any validation, so a resolved port can lie inside
the reserved range. -/
theorem C1_counterexample :
    applyCommandLineOverrides ⟨none, none, none, none⟩
      (resolvePortsForStartup envAllFree ⟨9000, 9000, 9300, 9400⟩) =
      ⟨9000, 9000, 9300, 9400⟩ ∧
    (applyCommandLineOverrides ⟨none, some "80", none, none⟩
      (resolvePortsForStartup envAllFree ⟨9222, 9223, 9224, 9225⟩)).mcp =
      80 ∧
    isPortAvailable envAllFree 80 = false := by
  refine ⟨by decide, by decide, by decide⟩

/-- C1 (amended): whenever the port scans complete within the attempt
budget and no command-line override is applied, (a) at startup the
resolved agent and extension ports are distinct from each other, from the
resolved CDP port and from the stored MCP port, and the CDP, agent and
extension ports each lie outside the well-known range and the
scheme-disallowed set — but the MCP port is kept unvalidated and the CDP
scan does not exclude it, so CDP and MCP may coincide; (b) a
`revalidate_all` restart revalidation yields four pairwise-distinct
ports, with MCP, agent and extension each outside the well-known range
and the scheme-disallowed set; (c) a light restart revalidation keeps
the MCP port and yields agent and extension ports distinct from CDP, MCP
and each other, each outside the well-known range and the
scheme-disallowed set (the retained MCP port is again not validated). -/
theorem C1_port_resolution_amended :
    (∀ (env : PortEnv) (p : Ports4) (cdp agent ext : Nat),
      findAvailablePortOpt env p.cdp [] = some cdp →
      findAvailablePortOpt env p.agent [cdp, p.mcp] = some agent →
      findAvailablePortOpt env p.ext [cdp, p.mcp, agent] = some ext →
      resolvePortsForStartup env p = ⟨cdp, p.mcp, agent, ext⟩ ∧
      agent ≠ cdp ∧ agent ≠ p.mcp ∧ ext ≠ cdp ∧ ext ≠ p.mcp ∧
      ext ≠ agent ∧
      (1024 ≤ cdp ∧ cdp ≤ 65535 ∧ env.schemeAllowed cdp = true) ∧
      (1024 ≤ agent ∧ agent ≤ 65535 ∧ env.schemeAllowed agent = true) ∧
      (1024 ≤ ext ∧ ext ≤ 65535 ∧ env.schemeAllowed ext = true)) ∧
    (∀ (env : PortEnv) (cdp mcp agent ext m a e : Nat),
      findAvailablePortOpt env mcp [cdp] = some m →
      findAvailablePortOpt env agent [cdp, m] = some a →
      findAvailablePortOpt env ext [cdp, m, a] = some e →
      revalidatePortsForRestart env cdp mcp agent ext true = ⟨m, a, e⟩ ∧
      m ≠ cdp ∧ a ≠ cdp ∧ a ≠ m ∧ e ≠ cdp ∧ e ≠ m ∧ e ≠ a ∧
      (1024 ≤ m ∧ m ≤ 65535 ∧ env.schemeAllowed m = true) ∧
      (1024 ≤ a ∧ a ≤ 65535 ∧ env.schemeAllowed a = true) ∧
      (1024 ≤ e ∧ e ≤ 65535 ∧ env.schemeAllowed e = true)) ∧
    (∀ (env : PortEnv) (cdp mcp agent ext a e : Nat),
      findAvailablePortOpt env agent [cdp, mcp] = some a →
      findAvailablePortOpt env ext [cdp, mcp, a] = some e →
      revalidatePortsForRestart env cdp mcp agent ext false =
        ⟨mcp, a, e⟩ ∧
      a ≠ cdp ∧ a ≠ mcp ∧ e ≠ cdp ∧ e ≠ mcp ∧ e ≠ a ∧
      (1024 ≤ a ∧ a ≤ 65535 ∧ env.schemeAllowed a = true) ∧
      (1024 ≤ e ∧ e ≤ 65535 ∧ env.schemeAllowed e = true)) := by
  refine ⟨?_, ?_, ?_⟩
  · intro env p cdp agent ext h1 h2 h3
    obtain ⟨e1, _, v1⟩ := findAvailablePortOpt_some env [] p.cdp cdp h1
    obtain ⟨e2, x2, v2⟩ :=
      findAvailablePortOpt_some env [cdp, p.mcp] p.agent agent h2
    obtain ⟨e3, x3, v3⟩ :=
      findAvailablePortOpt_some env [cdp, p.mcp, agent] p.ext ext h3
    have d2 := inExcluded_eq_false _ _ x2
    have d3 := inExcluded_eq_false _ _ x3
    obtain ⟨w1, w1b, w1c, _⟩ := isPortAvailable_eq_true env cdp v1
    obtain ⟨w2, w2b, w2c, _⟩ := isPortAvailable_eq_true env agent v2
    obtain ⟨w3, w3b, w3c, _⟩ := isPortAvailable_eq_true env ext v3
    refine ⟨?_, d2 cdp (by simp), d2 p.mcp (by simp), d3 cdp (by simp),
      d3 p.mcp (by simp), d3 agent (by simp),
      ⟨w1, w1b, w1c⟩, ⟨w2, w2b, w2c⟩, ⟨w3, w3b, w3c⟩⟩
    simp only [resolvePortsForStartup]
    rw [e1, e2, e3]
  · intro env cdp mcp agent ext m a e h1 h2 h3
    obtain ⟨e1, x1, v1⟩ := findAvailablePortOpt_some env [cdp] mcp m h1
    obtain ⟨e2, x2, v2⟩ :=
      findAvailablePortOpt_some env [cdp, m] agent a h2
    obtain ⟨e3, x3, v3⟩ :=
      findAvailablePortOpt_some env [cdp, m, a] ext e h3
    have d1 := inExcluded_eq_false _ _ x1
    have d2 := inExcluded_eq_false _ _ x2
    have d3 := inExcluded_eq_false _ _ x3
    obtain ⟨w1, w1b, w1c, _⟩ := isPortAvailable_eq_true env m v1
    obtain ⟨w2, w2b, w2c, _⟩ := isPortAvailable_eq_true env a v2
    obtain ⟨w3, w3b, w3c, _⟩ := isPortAvailable_eq_true env e v3
    refine ⟨?_, d1 cdp (by simp), d2 cdp (by simp), d2 m (by simp),
      d3 cdp (by simp), d3 m (by simp), d3 a (by simp),
      ⟨w1, w1b, w1c⟩, ⟨w2, w2b, w2c⟩, ⟨w3, w3b, w3c⟩⟩
    simp only [revalidatePortsForRestart, if_pos]
    rw [e1, e2, e3]
  · intro env cdp mcp agent ext a e h1 h2
    obtain ⟨e1, x1, v1⟩ :=
      findAvailablePortOpt_some env [cdp, mcp] agent a h1
    obtain ⟨e2, x2, v2⟩ :=
      findAvailablePortOpt_some env [cdp, mcp, a] ext e h2
    have d1 := inExcluded_eq_false _ _ x1
    have d2 := inExcluded_eq_false _ _ x2
    obtain ⟨w1, w1b, w1c, _⟩ := isPortAvailable_eq_true env a v1
    obtain ⟨w2, w2b, w2c, _⟩ := isPortAvailable_eq_true env e v2
    refine ⟨?_, d1 cdp (by simp), d1 mcp (by simp), d2 cdp (by simp),
      d2 mcp (by simp), d2 a (by simp),
      ⟨w1, w1b, w1c⟩, ⟨w2, w2b, w2c⟩⟩
    simp only [revalidatePortsForRestart, Bool.false_eq_true, if_neg,
      if_false]
    rw [e1, e2]

/-- C1 witness: the amended statement applied in the fully free
environment to stored ports `{9222, 9223, 9224, 9225}` (every scan finds
its preferred port immediately). -/
theorem C1_port_resolution_amended_witness :
    resolvePortsForStartup envAllFree ⟨9222, 9223, 9224, 9225⟩ =
      ⟨9222, 9223, 9224, 9225⟩ ∧
    revalidatePortsForRestart envAllFree 9222 9223 9224 9225 false =
      ⟨9223, 9224, 9225⟩ := by
  have h1 := C1_port_resolution_amended.1 envAllFree
    ⟨9222, 9223, 9224, 9225⟩ 9222 9224 9225 (by decide) (by decide)
    (by decide)
  have h2 := C1_port_resolution_amended.2.2 envAllFree
    9222 9223 9224 9225 9224 9225 (by decide) (by decide)
  exact ⟨h1.1, h2.1⟩

theorem startupCrashTracking_isRestarting (s : MgrState) (u : Nat) :
    (startupCrashTracking s u).1.isRestarting = s.isRestarting := by
  simp only [startupCrashTracking]
  split_ifs <;> rfl

theorem startupCrashTracking_acts (s : MgrState) (u : Nat) :
    (startupCrashTracking s u).2 = [] ∨
      (startupCrashTracking s u).2 =
        [MgrAction.invalidateDownloadedVersion] := by
  simp only [startupCrashTracking]
  split_ifs <;> simp

theorem startupCrashTracking_increment (s : MgrState) (u : Nat)
    (hu : u < 30000) (hlt : s.failures + 1 < 3) :
    startupCrashTracking s u = ({ s with failures := s.failures + 1 }, []) := by
  simp only [startupCrashTracking]
  rw [if_pos hu, if_neg (by omega)]

theorem startupCrashTracking_threshold (s : MgrState) (u : Nat)
    (hu : u < 30000) (hge : 3 ≤ s.failures + 1) (hupd : s.hasUpdater = true) :
    startupCrashTracking s u =
      ({ s with failures := 0 }, [MgrAction.invalidateDownloadedVersion]) := by
  simp only [startupCrashTracking]
  rw [if_pos hu, if_pos hge]
  simp [hupd]

theorem startupCrashTracking_reset (s : MgrState) (u : Nat)
    (hu : 30000 ≤ u) :
    startupCrashTracking s u = ({ s with failures := 0 }, []) := by
  simp only [startupCrashTracking]
  rw [if_neg (by omega)]

/-- C3 counterexample: with `is_restarting_` true, delivering the launch
completion of a FAILED launch (`OnProcessLaunched` with an invalid
process, browseros_server_manager.cc:653-668) also clears
`is_restarting_` — so the flag does not become false only inside the
successful-launch completion path. -/
theorem C3_counterexample :
    mgrRestartingState.isRestarting = true ∧
    (mgrStep mgrRestartingState (.processLaunched false false)).1.isRunning
      = false ∧
    (mgrStep mgrRestartingState
      (.processLaunched false false)).1.isRestarting = false := by
  refine ⟨rfl, by decide, by decide⟩

/-- C3 (amended): while `is_restarting_` is true, every restart trigger
(health-check failure, process-exit notification, restart-requested
preference) returns without starting a second terminate/revalidate/launch
and leaves the flag set; and `is_restarting_` becomes false only inside
the launch completion handler `OnProcessLaunched` — on success or on
failure — never in any other transition. -/
theorem C3_single_restart_amended :
    (∀ (s : MgrState) (code : Nat), s.isRestarting = true →
      startsRestartWork (mgrStep s (.healthCheckComplete code)).2 = false ∧
      (mgrStep s (.healthCheckComplete code)).1.isRestarting = true) ∧
    (∀ (s : MgrState) (c : Int) (u : Nat), s.isRestarting = true →
      startsRestartWork (mgrStep s (.processExited c u)).2 = false ∧
      (mgrStep s (.processExited c u)).1.isRestarting = true) ∧
    (∀ (s : MgrState) (v : Bool), s.isRestarting = true →
      startsRestartWork
        (mgrStep s (.restartRequestedChanged v)).2 = false ∧
      (mgrStep s (.restartRequestedChanged v)).1.isRestarting = true) ∧
    (∀ (s : MgrState) (e : MgrEvent), s.isRestarting = true →
      (mgrStep s e).1.isRestarting = false →
      ∃ ok fb, e = .processLaunched ok fb) := by
  have hrestart : ∀ s : MgrState, s.isRestarting = true →
      restartBrowserOSProcess s = (s, []) := by
    intro s h
    simp [restartBrowserOSProcess, h]
  have hexit : ∀ (s : MgrState) (c : Int) (u : Nat),
      s.isRestarting = true →
      startsRestartWork (mgrStep s (.processExited c u)).2 = false ∧
      (mgrStep s (.processExited c u)).1.isRestarting = true := by
    intro s c u h
    simp only [mgrStep, onProcessExited]
    by_cases hc : c = 0
    · simp [hc, startsRestartWork, h]
    · rw [if_neg hc]
      have hflag : (startupCrashTracking
          { s with isRunning := false } u).1.isRestarting = true := by
        rw [startupCrashTracking_isRestarting]
        exact h
      rw [if_pos hflag]
      refine ⟨?_, hflag⟩
      rcases startupCrashTracking_acts { s with isRunning := false } u
        with ha | ha <;> simp [ha, startsRestartWork]
  refine ⟨?_, hexit, ?_, ?_⟩
  · intro s code h
    simp only [mgrStep]
    by_cases hr : s.isRunning
    · by_cases hcode : code = 200
      · simp [hr, hcode, startsRestartWork, h]
      · simp [hr, hcode, hrestart s h, startsRestartWork, h]
    · simp [hr, startsRestartWork, h]
  · intro s v h
    by_cases hv : v
    · simp [mgrStep, hv, hrestart s h, startsRestartWork, h]
    · simp [mgrStep, hv, startsRestartWork, h]
  · intro s e h hcleared
    cases e with
    | healthCheckComplete code =>
      exfalso
      have := h
      simp only [mgrStep] at hcleared
      by_cases hr : s.isRunning
      · by_cases hcode : code = 200
        · simp [hr, hcode, h] at hcleared
        · rw [hrestart s h] at hcleared
          · simp [hr, hcode, h] at hcleared
      · simp [hr, h] at hcleared
    | processExited c u =>
      exfalso
      have hkeep := (hexit s c u h).2
      rw [hkeep] at hcleared
      exact Bool.true_eq_false ▸ hcleared
    | restartRequestedChanged v =>
      exfalso
      by_cases hv : v
      · rw [show mgrStep s (.restartRequestedChanged v) = (s, []) by
          simp [mgrStep, hv, hrestart s h]] at hcleared
        rw [h] at hcleared
        exact absurd hcleared (by simp)
      · simp [mgrStep, hv, h] at hcleared
    | portsRevalidated pc =>
      exfalso
      simp [mgrStep, h] at hcleared
    | processLaunched ok fb => exact ⟨ok, fb, rfl⟩

/-- C3 witness: the amended statement applied in the restarting state to
a health-check failure (HTTP 0) and to a failed-launch completion. -/
theorem C3_single_restart_amended_witness :
    (startsRestartWork
      (mgrStep mgrRestartingState (.healthCheckComplete 0)).2 = false ∧
     (mgrStep mgrRestartingState
       (.healthCheckComplete 0)).1.isRestarting = true) ∧
    (∃ ok fb, (MgrEvent.processLaunched false false) =
      MgrEvent.processLaunched ok fb) := by
  refine ⟨C3_single_restart_amended.1 mgrRestartingState 0 rfl, ?_⟩
  exact C3_single_restart_amended.2.2.2 mgrRestartingState
    (.processLaunched false false) rfl (by decide)

/-- C4: when the liveness poll reports an exit, (a) exit code 0 causes no
restart work and leaves the startup-failure counter unchanged; (b) a
non-zero exit with uptime below the 30s grace period increments the
counter when it stays under the threshold, with no rollback; (c) a
non-zero early exit that brings the counter to 3 performs exactly one
rollback-invalidation of the downloaded binary (the updater being
present) followed by a reset of the counter to 0; (d) a non-zero exit
past the grace period resets the counter; (e) the restart posted when
none is in flight revalidates all ports exactly when the exit code is 2;
and (f) the light revalidation keeps the same MCP port. -/
theorem C4_process_exit_policy :
    (∀ (s : MgrState) (u : Nat),
      (mgrStep s (.processExited 0 u)).1.failures = s.failures ∧
      startsRestartWork (mgrStep s (.processExited 0 u)).2 = false ∧
      (mgrStep s (.processExited 0 u)).1.isRestarting = s.isRestarting) ∧
    (∀ (s : MgrState) (c : Int) (u : Nat), c ≠ 0 → u < 30000 →
      s.failures + 1 < 3 →
      (mgrStep s (.processExited c u)).1.failures = s.failures + 1 ∧
      (mgrStep s
        (.processExited c u)).2.count .invalidateDownloadedVersion = 0) ∧
    (∀ (s : MgrState) (c : Int) (u : Nat), c ≠ 0 → u < 30000 →
      s.failures = 2 → s.hasUpdater = true →
      (mgrStep s
        (.processExited c u)).2.count .invalidateDownloadedVersion = 1 ∧
      (mgrStep s (.processExited c u)).1.failures = 0) ∧
    (∀ (s : MgrState) (c : Int) (u : Nat), c ≠ 0 → 30000 ≤ u →
      (mgrStep s (.processExited c u)).1.failures = 0) ∧
    (∀ (s : MgrState) (c : Int) (u : Nat), c ≠ 0 →
      s.isRestarting = false →
      MgrAction.revalidatePorts (decide (c = 2)) ∈
        (mgrStep s (.processExited c u)).2) ∧
    (∀ (env : PortEnv) (cdp mcp agent ext : Nat),
      (revalidatePortsForRestart env cdp mcp agent ext false).mcp =
        mcp) := by
  refine ⟨?_, ?_, ?_, ?_, ?_, ?_⟩
  · intro s u
    simp [mgrStep, onProcessExited, startsRestartWork]
  · intro s c u hc hu hlt
    simp only [mgrStep, onProcessExited]
    rw [if_neg hc,
      startupCrashTracking_increment { s with isRunning := false } u hu hlt]
    by_cases hr : s.isRestarting <;> simp [hr]
  · intro s c u hc hu hf hupd
    simp only [mgrStep, onProcessExited]
    rw [if_neg hc,
      startupCrashTracking_threshold { s with isRunning := false } u hu
        (by simp [hf]) hupd]
    by_cases hr : s.isRestarting <;> simp [hr, List.count_cons]
  · intro s c u hc hu
    simp only [mgrStep, onProcessExited]
    rw [if_neg hc, startupCrashTracking_reset { s with isRunning := false } u hu]
    by_cases hr : s.isRestarting <;> simp [hr]
  · intro s c u hc hr
    simp only [mgrStep, onProcessExited]
    rw [if_neg hc]
    have hflag : (startupCrashTracking
        { s with isRunning := false } u).1.isRestarting = false := by
      rw [startupCrashTracking_isRestarting]
      exact hr
    rw [if_neg (by simp [hflag])]
    simp
  · intro env cdp mcp agent ext
    simp [revalidatePortsForRestart]

/-- C4 witness: a clean exit leaves a counter of 2 untouched; a third
early crash (exit code 1, uptime 5s) with the updater present triggers
exactly one invalidation and resets the counter; a late crash resets the
counter; a port-conflict exit (code 2) from a non-restarting state posts
a full revalidation; and a light revalidation keeps MCP 9223. -/
theorem C4_process_exit_policy_witness :
    (mgrStep ⟨true, false, false, true, false, 2⟩
      (.processExited 0 5000)).1.failures = 2 ∧
    (mgrStep ⟨true, false, false, true, false, 2⟩
      (.processExited 1 5000)).2.count .invalidateDownloadedVersion = 1 ∧
    (mgrStep ⟨true, false, false, true, false, 2⟩
      (.processExited 1 50000)).1.failures = 0 ∧
    MgrAction.revalidatePorts true ∈
      (mgrStep ⟨true, false, false, true, false, 0⟩
        (.processExited 2 50000)).2 ∧
    (revalidatePortsForRestart envAllFree 9222 9223 9224 9225 false).mcp =
      9223 := by
  refine ⟨(C4_process_exit_policy.1 ⟨true, false, false, true, false, 2⟩
      5000).1,
    (C4_process_exit_policy.2.2.1 ⟨true, false, false, true, false, 2⟩
      1 5000 (by decide) (by decide) rfl rfl).1,
    C4_process_exit_policy.2.2.2.1 ⟨true, false, false, true, false, 2⟩
      1 50000 (by decide) (by decide), ?_,
    C4_process_exit_policy.2.2.2.2.2 envAllFree 9222 9223 9224 9225⟩
  have h := C4_process_exit_policy.2.2.2.2.1
    ⟨true, false, false, true, false, 0⟩ 2 50000 (by decide) rfl
  simpa using h

/-- C5 counterexample: under the spec-modelled health handler, a single
isolated health-check failure (counter 0, supervisor running) already
triggers a light restart — not "no restart at all". -/
theorem C5_counterexample :
    onHealthCheckCompleteModelled true 0 false =
      (1, HealthRestart.lightRestart) ∧
    HealthRestart.lightRestart ≠ HealthRestart.noRestart := by
  exact ⟨rfl, by decide⟩

/-- C5 (amended): a failed health probe while running increments the
consecutive-failure counter, and the resulting restart re-validates all
ports from scratch exactly from the 3rd consecutive failure on; a single
isolated failure triggers only a light restart (volatile ports) rather
than no restart; and any success resets the counter to zero without
restarting. -/
theorem C5_health_failure_policy_amended :
    (∀ c : Nat, (onHealthCheckCompleteModelled true c false).1 = c + 1) ∧
    (∀ c : Nat, (onHealthCheckCompleteModelled true c false).2 =
      HealthRestart.fullRevalidation ↔ 2 ≤ c) ∧
    (onHealthCheckCompleteModelled true 0 false).2 =
      HealthRestart.lightRestart ∧
    (∀ c : Nat, onHealthCheckCompleteModelled true c true =
      (0, HealthRestart.noRestart)) := by
  refine ⟨?_, ?_, rfl, ?_⟩
  · intro c
    simp only [onHealthCheckCompleteModelled, Bool.not_true,
      Bool.false_eq_true, if_false, Bool.true_eq_false]
    split_ifs <;> rfl
  · intro c
    simp only [onHealthCheckCompleteModelled, Bool.not_true,
      Bool.false_eq_true, if_false, Bool.true_eq_false]
    by_cases hc : 3 ≤ c + 1
    · rw [if_pos hc]
      constructor
      · intro _
        omega
      · intro _
        rfl
    · rw [if_neg hc]
      constructor
      · intro hcontr
        simp at hcontr
      · intro hge
        exact absurd hge (by omega)
  · intro c
    simp [onHealthCheckCompleteModelled]

/-- C5 witness: the amended statement applied at counters 0 and 2 and to
a success at counter 2. -/
theorem C5_health_failure_policy_amended_witness :
    (onHealthCheckCompleteModelled true 2 false).1 = 3 ∧
    ((onHealthCheckCompleteModelled true 2 false).2 =
      HealthRestart.fullRevalidation) ∧
    onHealthCheckCompleteModelled true 2 true =
      (0, HealthRestart.noRestart) := by
  exact ⟨C5_health_failure_policy_amended.1 2,
    (C5_health_failure_policy_amended.2.1 2).mpr (by decide),
    C5_health_failure_policy_amended.2.2.2 2⟩

/-- C2: if orphan recovery reads a stored record `{pid = P,
creation_time = T}` and the OS reports a live process at `P` whose
retrieved creation time differs from `T`, then recovery issues no kill
against `P` and deletes the state record. -/
theorem C2_orphan_pid_reuse_safe (env : OrphanEnv) (P : Nat) (T t : Int)
    (hrec : env.stateRecord = some ⟨P, T⟩)
    (halive : env.processExists P = true)
    (htime : env.creationTimeOf P = some t)
    (hne : t ≠ T) :
    (recoverFromOrphan env).killIssued = false ∧
    (recoverFromOrphan env).recordDeleted = true ∧
    (recoverFromOrphan env).orphanKilled = false := by
  simp [recoverFromOrphan, hrec, halive, htime, hne]

/-- C2 witness: the record stores pid 4242 with creation time 1000, the
live process at 4242 reports creation time 2000 — no kill, record
deleted. -/
theorem C2_orphan_pid_reuse_safe_witness :
    (recoverFromOrphan orphanEnvReused).killIssued = false ∧
    (recoverFromOrphan orphanEnvReused).recordDeleted = true ∧
    (recoverFromOrphan orphanEnvReused).orphanKilled = false :=
  C2_orphan_pid_reuse_safe orphanEnvReused 4242 1000 2000 rfl rfl rfl
    (by decide)

/-- C7: evaluating the termination code at the failing input — a restart
or shutdown with a valid process handle.  Both
`BrowserOSServerManager::TerminateBrowserOSProcess`
(browseros_server_manager.cc:725-741) and
`ProcessControllerImpl::Terminate` (process_controller_impl.cc:157-171)
send SIGKILL immediately; no HTTP POST `/shutdown` request is ever
issued, contradicting the claim and the declaration comment at
browseros_server_manager.h:151-154 ("Graceful shutdown: HTTP POST
/shutdown (1s timeout) → SIGKILL if failed"). -/
theorem C7_terminate_skips_graceful_shutdown :
    terminateBrowserOSProcess true true =
      [TermAction.sigkill, TermAction.waitForExit] ∧
    terminateBrowserOSProcess true false = [TermAction.sigkill] ∧
    processControllerTerminate true false = [TermAction.sigkill] ∧
    TermAction.httpShutdownRequest ∉ terminateBrowserOSProcess true true ∧
    TermAction.httpShutdownRequest ∉ terminateBrowserOSProcess true false ∧
    TermAction.httpShutdownRequest ∉
      processControllerTerminate true false := by
  refine ⟨rfl, rfl, rfl, by decide, by decide, by decide⟩

/-- C8: for an accepted request whose loader is still pending and whose
server is alive, the proxy answers 503 Service Unavailable whenever no
backend port is set (`backend_port_ <= 0`) or the backend is unreachable
(no response body, or response status 0) — never a forwarded backend
response. -/
theorem C8_backend_unavailable_503 :
    (∀ (bp : Int) (hf : Bool), bp ≤ 0 →
      forwardRequest bp hf = some ProxyReply.serviceUnavailable) ∧
    (∀ r : BackendResult, r.body = none ∨ r.responseCode = 0 →
      onBackendResponse true true r =
        some ProxyReply.serviceUnavailable) := by
  constructor
  · intro bp hf hbp
    simp [forwardRequest, hbp]
  · intro r hr
    rcases hr with hb | hcode
    · simp [onBackendResponse, hb]
    · simp [onBackendResponse, hcode]

/-- C8 witness: an unset backend port (0) yields 503, and a backend reply
with no body and status 0 yields 503. -/
theorem C8_backend_unavailable_503_witness :
    forwardRequest 0 true = some ProxyReply.serviceUnavailable ∧
    onBackendResponse true true ⟨none, 0, none⟩ =
      some ProxyReply.serviceUnavailable :=
  ⟨C8_backend_unavailable_503.1 0 true (by decide),
    C8_backend_unavailable_503.2 ⟨none, 0, none⟩ (Or.inl rfl)⟩

/-- C9: with `allow_remote_` false a non-loopback peer is rejected (403,
connection closed) without reaching the forwarding path, while with
`allow_remote_` true every peer — loopback or not — is handed to
`ForwardRequest`. -/
theorem C9_loopback_policy :
    onHttpRequest false false = InboundDecision.rejectForbidden ∧
    (∀ peerIsLoopback : Bool,
      onHttpRequest true peerIsLoopback =
        InboundDecision.forwardRequestPath) := by
  exact ⟨rfl, by decide⟩

/-- C10: a per-port override whose value fails to parse or lies outside
1..65535 makes the helper return 0 and leaves the resolved port
unchanged, while any parsed value in 1..65535 — including well-known
ports below 1024 and scheme-restricted ports, which only draw warnings —
replaces the resolved port; `applyCommandLineOverrides` consults no
availability probe (it takes no port environment at all). -/
theorem C10_override_validation :
    getPortOverrideFromCommandLine none = 0 ∧
    (∀ s : String, stringToIntCpp s = none →
      getPortOverrideFromCommandLine (some s) = 0) ∧
    (∀ (s : String) (v : Int), stringToIntCpp s = some v →
      v ≤ 0 ∨ 65535 < v → getPortOverrideFromCommandLine (some s) = 0) ∧
    (∀ (s : String) (v : Int), stringToIntCpp s = some v →
      0 < v → v ≤ 65535 → getPortOverrideFromCommandLine (some s) = v) ∧
    (∀ (ov : PortOverrides) (p : Ports4),
      (getPortOverrideFromCommandLine ov.cdp = 0 →
        (applyCommandLineOverrides ov p).cdp = p.cdp) ∧
      (getPortOverrideFromCommandLine ov.mcp = 0 →
        (applyCommandLineOverrides ov p).mcp = p.mcp) ∧
      (getPortOverrideFromCommandLine ov.agent = 0 →
        (applyCommandLineOverrides ov p).agent = p.agent) ∧
      (getPortOverrideFromCommandLine ov.ext = 0 →
        (applyCommandLineOverrides ov p).ext = p.ext)) ∧
    (∀ (ov : PortOverrides) (p : Ports4) (v : Int), 0 < v →
      (getPortOverrideFromCommandLine ov.cdp = v →
        (applyCommandLineOverrides ov p).cdp = v.toNat) ∧
      (getPortOverrideFromCommandLine ov.mcp = v →
        (applyCommandLineOverrides ov p).mcp = v.toNat) ∧
      (getPortOverrideFromCommandLine ov.agent = v →
        (applyCommandLineOverrides ov p).agent = v.toNat) ∧
      (getPortOverrideFromCommandLine ov.ext = v →
        (applyCommandLineOverrides ov p).ext = v.toNat)) := by
  refine ⟨rfl, ?_, ?_, ?_, ?_, ?_⟩
  · intro s hs
    simp [getPortOverrideFromCommandLine, hs]
  · intro s v hs hrange
    simp [getPortOverrideFromCommandLine, hs, hrange]
  · intro s v hs h0 h65535
    have : ¬(v ≤ 0 ∨ 65535 < v) := by omega
    simp [getPortOverrideFromCommandLine, hs, this]
  · intro ov p
    refine ⟨?_, ?_, ?_, ?_⟩ <;>
      · intro h
        simp [applyCommandLineOverrides, h]
  · intro ov p v hv
    refine ⟨?_, ?_, ?_, ?_⟩ <;>
      · intro h
        simp [applyCommandLineOverrides, h, hv]

/-- C10 witness: the override value 80 (well-known port, never probed)
replaces the MCP port; the values "abc" (non-numeric), "70000" and "-5"
(outside 1..65535) are ignored. -/
theorem C10_override_validation_witness :
    getPortOverrideFromCommandLine (some "80") = 80 ∧
    (applyCommandLineOverrides ⟨none, some "80", none, none⟩
      ⟨9222, 9223, 9224, 9225⟩).mcp = 80 ∧
    getPortOverrideFromCommandLine (some "abc") = 0 ∧
    getPortOverrideFromCommandLine (some "70000") = 0 ∧
    getPortOverrideFromCommandLine (some "-5") = 0 ∧
    (applyCommandLineOverrides ⟨none, some "abc", none, none⟩
      ⟨9222, 9223, 9224, 9225⟩).mcp = 9223 := by
  have h80 := C10_override_validation.2.2.2.1 "80" 80 rfl (by decide)
    (by decide)
  refine ⟨h80, ?_, C10_override_validation.2.1 "abc" rfl,
    C10_override_validation.2.2.1 "70000" 70000 rfl (by decide),
    C10_override_validation.2.2.1 "-5" (-5) rfl (by decide), ?_⟩
  · have := (C10_override_validation.2.2.2.2.2
      ⟨none, some "80", none, none⟩ ⟨9222, 9223, 9224, 9225⟩ 80
      (by decide)).2.1 h80
    simpa using this
  · exact (C10_override_validation.2.2.2.2.1
      ⟨none, some "abc", none, none⟩ ⟨9222, 9223, 9224, 9225⟩).2.1
      (C10_override_validation.2.1 "abc" rfl)

end BrowserOSServer
